import Mathlib

/-!
Verification development for the sunday-llm backend abstraction layer
(src/web_api_client.rs, src/ollama_client.rs, src/openai_client.rs,
src/settings.rs).

The Rust code is shallowly embedded: pure request building and response
parsing become Lean functions; the network boundary is made explicit by
passing the wire response (`HttpResponse`) as an argument to the functions
that, in Rust, await it.  serde's derived `Serialize`/`Deserialize`
behaviour is modelled field by field (an `Option` field serializes as
`null` when `None` and deserializes to `None` when absent or `null`;
every non-`Option` field is required).  The external `url` and `http`
crates are modelled at the level of detail the code observes: success or
failure of `Url::parse`, and the byte-level validity rules of
`HeaderName`/`HeaderValue`.
-/

namespace SundayLLM

/-! ## JSON values (model of serde_json::Value)

Numbers are modelled as rationals, which represent exactly every numeric
literal this code base serializes (integers and the f32 temperature). -/

inductive Json where
  | null : Json
  | bool : Bool → Json
  | num : Rat → Json
  | str : String → Json
  | arr : List Json → Json
  | obj : List (String × Json) → Json

def lookupAssoc : List (String × Json) → String → Option Json
  | [], _ => none
  | (k', v) :: t, k => if k' = k then some v else lookupAssoc t k

/-- Field lookup in a JSON object (first binding wins, as in serde_json). -/
def Json.getField : Json → String → Option Json
  | .obj fields, k => lookupAssoc fields k
  | _, _ => none

/-! ## Transport error type (src/web_api_client.rs, WebApiClientError) -/

inductive WebApiClientError where
  | HeaderCreationError : String → WebApiClientError
  | ClientCreationError : String → WebApiClientError
  | PostFailed : String → WebApiClientError
  | InvalidApiKey : String → WebApiClientError
  | InvalidInput : String → WebApiClientError
  | ParseError : String → WebApiClientError
deriving DecidableEq, Repr

/-- Display impl for WebApiClientError (src/web_api_client.rs lines 23-38). -/
def WebApiClientError.display : WebApiClientError → String
  | .HeaderCreationError msg => "Header creation error: " ++ msg
  | .ClientCreationError msg => "Client creation error: " ++ msg
  | .PostFailed msg => "POST request failed: " ++ msg
  | .InvalidApiKey msg => "Invalid API key: " ++ msg
  | .InvalidInput msg => "Invalid input: " ++ msg
  | .ParseError msg => "Parse error: " ++ msg

/-! ## HTTP header validity (model of the http crate used by reqwest)

`HeaderName::try_from(&str)` accepts a nonempty string of HTTP token
characters (letters — uppercase is normalized to lowercase — digits, and
the punctuation below) and rejects anything else.
`HeaderValue::from_str` accepts a string each of whose bytes is horizontal
tab or at least 32 and not 127; every byte of a multi-byte UTF-8 character
is at least 128, so the per-character test below is equivalent to the
crate's per-byte test. -/

def isValidHeaderNameChar (c : Char) : Bool :=
  c.isAlpha || c.isDigit || "!#$%&*+-.^_|~".data.contains c
    || c = Char.ofNat 39 || c = Char.ofNat 96

def validHeaderName (s : String) : Bool :=
  !s.isEmpty && s.data.all isValidHeaderNameChar

def isValidHeaderValueChar (c : Char) : Bool :=
  c = Char.ofNat 9 || (32 ≤ c.toNat && c.toNat ≠ 127)

def validHeaderValue (s : String) : Bool :=
  s.data.all isValidHeaderValueChar

/-! ## Header maps

reqwest's `HeaderMap::insert` replaces the value stored under an existing
name (keeping its position) and otherwise appends; names are stored
lowercased by `HeaderName`. -/

def insertHeader : List (String × String) → String → String → List (String × String)
  | [], k, v => [(k, v)]
  | (k', v') :: t, k, v =>
      if k' = k then (k, v) :: t else (k', v') :: insertHeader t k v

def lookupHeader : List (String × String) → String → Option String
  | [], _ => none
  | (k', v) :: t, k => if k' = k then some v else lookupHeader t k

/-- The per-character lowercasing HeaderName applies to a header name. -/
def lowerStr (s : String) : String := ⟨s.data.map Char.toLower⟩

/-! ## WebApiClient (src/web_api_client.rs)

The built reqwest `Client` is modelled as a frozen snapshot of the
configuration it was built from (`HttpClient`).  `ClientBuilder::build`
can only fail for reasons outside this model (TLS backend initialization),
never as a function of the headers or timeouts used here, so the model's
client construction is total. -/

structure HttpClient where
  user_agent : String
  default_headers : List (String × String)
  connection_timeout : Option Nat
  deadline_timeout : Option Nat
deriving DecidableEq, Repr

structure WebApiClient where
  headers : List (String × String)
  user_agent : String
  connection_timeout : Option Nat
  deadline_timeout : Option Nat
  client : HttpClient
deriving DecidableEq, Repr

/-- APP_NAME/APP_VERSION are baked in from build metadata
(CARGO_PKG_NAME / CARGO_PKG_VERSION); the values are irrelevant to every
claim, only the fact that the user agent is a fixed process-wide string. -/
def APP_NAME : String := "sunday-llm"

def APP_VERSION : String := "0.1.0"

def mkHttpClient (ua : String) (hs : List (String × String))
    (ct dt : Option Nat) : HttpClient :=
  { user_agent := ua, default_headers := hs,
    connection_timeout := ct, deadline_timeout := dt }

/-- WebApiClient::new (src/web_api_client.rs lines 50-70): starts from a
`Content-Type: application/json` header (name lowercased by HeaderName)
and builds the initial client. -/
def WebApiClient.new (connection_timeout deadline_timeout : Option Nat) :
    WebApiClient :=
  let headers := insertHeader [] "content-type" "application/json"
  let ua := APP_NAME ++ " " ++ APP_VERSION
  { headers := headers, user_agent := ua,
    connection_timeout := connection_timeout,
    deadline_timeout := deadline_timeout,
    client := mkHttpClient ua headers connection_timeout deadline_timeout }

def headerNameErrMsg (key : String) : String :=
  "Invalid header name " ++ key

def headerValueErrMsg (key : String) : String :=
  "Invalid header value for " ++ key

/-- WebApiClient::add_header (src/web_api_client.rs lines 72-89).
Rust takes `&mut self` and returns `Result<&WebApiClient, _>`; the model
returns the post-call state together with the optional error.  Both
validations happen before the insert and the client rebuild, so on error
the state is returned untouched. -/
def WebApiClient.add_header (c : WebApiClient) (key value : String) :
    WebApiClient × Option WebApiClientError :=
  if validHeaderName key then
    if validHeaderValue value then
      let headers := insertHeader c.headers (lowerStr key) value
      ({ c with
          headers := headers,
          client := mkHttpClient c.user_agent headers
            c.connection_timeout c.deadline_timeout }, none)
    else (c, some (.HeaderCreationError (headerValueErrMsg key)))
  else (c, some (.HeaderCreationError (headerNameErrMsg key)))

/-! ## URLs (model of the external url crate)

`Url::parse` implements the WHATWG URL algorithm; the constructors under
verification only observe whether it succeeds, so it is modelled at the
granularity the claims need: an absolute URL must begin with a scheme
(a letter followed by letters, digits, `+`, `-` or `.`) and a colon;
a string without such a prefix ("relative URL without a base") fails. -/

structure Url where
  scheme : String
  rest : String
deriving DecidableEq, Repr

def isSchemeChar (c : Char) : Bool :=
  c.isAlpha || c.isDigit || c = '+' || c = '-' || c = '.'

def Url.parse (s : String) : Option Url :=
  let scheme := s.data.takeWhile (fun c => c ≠ ':')
  match s.data.dropWhile (fun c => c ≠ ':') with
  | [] => none
  | _ :: rest =>
      if scheme ≠ [] && (scheme.headD ' ').isAlpha && scheme.all isSchemeChar
      then some { scheme := ⟨scheme⟩, rest := ⟨rest⟩ }
      else none

/-- The authority part ("//host:port") of the part after the scheme, used
by absolute-path joins. -/
def urlAuthority (rest : String) : String :=
  if rest.startsWith "//" then
    "//" ++ String.mk ((rest.drop 2).data.takeWhile
      (fun c => c ≠ '/' && c ≠ '?' && c ≠ '#'))
  else ""

/-- `Url::join` with an absolute-path input ("/api/generate",
"/v1/chat/completions") replaces the base URL's path and cannot fail,
so the error arms guarding it in the Rust code are dead for these inputs. -/
def Url.joinAbsPath (u : Url) (p : String) : Url :=
  { scheme := u.scheme, rest := urlAuthority u.rest ++ p }

/-! ## The wire response, and post_request (src/web_api_client.rs 113-144)

`HttpResponse` is what the network returned: the status code, the body
text, and — standing in for the external `serde_json::from_str` text
parser — the JSON value of the body when the body is well-formed JSON. -/

structure HttpResponse where
  status : Nat
  body : String
  bodyJson : Option Json

/-- An abbreviated table of the http crate's canonical reason phrases
(`StatusCode`'s `Display` prints "{code} {canonical_reason}"), covering
the statuses used in this development. -/
def canonicalReason (status : Nat) : String :=
  if status = 200 then "OK"
  else if status = 400 then "Bad Request"
  else if status = 404 then "Not Found"
  else if status = 500 then "Internal Server Error"
  else "<unknown status code>"

def statusDisplay (status : Nat) : String :=
  toString status ++ " " ++ canonicalReason status

/-- The non-2xx error message built at src/web_api_client.rs lines 135-139. -/
def postErrMsg (status : Nat) (body : String) : String :=
  "Server returned error status " ++ statusDisplay status ++ ": " ++ body

/-- WebApiClient::post_request, from the point where the wire response is
in hand: check `status.is_success()` (2xx), otherwise fail with the
status and the raw body; on success parse the body text as JSON. -/
def WebApiClient.post_request (_c : WebApiClient) (_url : Url) (_payload : Json)
    (resp : HttpResponse) : Except WebApiClientError Json :=
  if 200 ≤ resp.status ∧ resp.status < 300 then
    match resp.bodyJson with
    | some v => .ok v
    | none => .error (.PostFailed "Failed to parse JSON response")
  else
    .error (.PostFailed (postErrMsg resp.status resp.body))

/-! ## Settings (src/settings.rs, ServerConfig) -/

structure ServerConfig where
  name : String
  model : String
  api_type : String
  base_api_url : String
  secret : Option String
  connection_timeout : Option Nat
  deadline_timeout : Option Nat
deriving DecidableEq, Repr

/-! ## serde building blocks

Derived `Deserialize` on a struct: every non-`Option` field must be
present with the right type; an `Option` field that is absent or `null`
becomes `None`; unknown fields are ignored. -/

def Json.asString : Json → Option String
  | .str s => some s
  | _ => none

def Json.asBool : Json → Option Bool
  | .bool b => some b
  | _ => none

/-- An unsigned integer field (u64 / usize): a JSON number that is a
non-negative integer. -/
def Json.asNat : Json → Option Nat
  | .num q => if q.den = 1 ∧ 0 ≤ q.num then some q.num.toNat else none
  | _ => none

def jsonNats : List Json → Option (List Nat)
  | [] => some []
  | x :: t =>
      match x.asNat, jsonNats t with
      | some n, some ns => some (n :: ns)
      | _, _ => none

def Json.asNatArray : Json → Option (List Nat)
  | .arr xs => jsonNats xs
  | _ => none

/-- A required struct field: absent is an error, wrong type is an error. -/
def reqField (j : Json) (k : String) (conv : Json → Option α) :
    Except String α :=
  match j.getField k with
  | none => .error ("missing field " ++ k)
  | some v =>
      match conv v with
      | none => .error ("invalid type for field " ++ k)
      | some a => .ok a

/-- An `Option` struct field: absent or `null` is `none`, wrong type is
an error. -/
def optField (j : Json) (k : String) (conv : Json → Option α) :
    Except String (Option α) :=
  match j.getField k with
  | none => .ok none
  | some .null => .ok none
  | some v =>
      match conv v with
      | none => .error ("invalid type for field " ++ k)
      | some a => .ok (some a)

/-! ## Ollama adapter (src/ollama_client.rs) -/

/-- GenerateRequest (src/ollama_client.rs lines 8-19). -/
structure GenerateRequest where
  model : String
  prompt : String
  system : Option String
  raw : Bool
  stream : Bool
  temperature : Option Rat
  suffix : Option String
  format : Option String
  keep_alive : Option String

/-- impl Default for GenerateRequest (src/ollama_client.rs lines 22-36);
the f32 literal 0.3 is represented exactly as the rational 3/10. -/
def GenerateRequest.default : GenerateRequest :=
  { model := "", prompt := "", raw := false, stream := false,
    temperature := some (mkRat 3 10), system := none, suffix := none,
    format := none, keep_alive := some "10m" }

def serOptStr : Option String → Json
  | none => .null
  | some s => .str s

def serOptNum : Option Rat → Json
  | none => .null
  | some q => .num q

/-- Derived `Serialize` for GenerateRequest: every field is emitted in
declaration order; an `Option` field that is `None` is emitted as `null`
(the derive carries no `skip_serializing_if`). -/
def GenerateRequest.serialize (r : GenerateRequest) : Json :=
  .obj [("model", .str r.model),
        ("prompt", .str r.prompt),
        ("system", serOptStr r.system),
        ("raw", .bool r.raw),
        ("stream", .bool r.stream),
        ("temperature", serOptNum r.temperature),
        ("suffix", serOptStr r.suffix),
        ("format", serOptStr r.format),
        ("keep_alive", serOptStr r.keep_alive)]

/-- GenerateResponse (src/ollama_client.rs lines 38-52).  `context` is a
plain `Vec<usize>` — not an `Option`, and the serde derive carries no
`#[serde(default)]` — so it is a required field of the wire response. -/
structure GenerateResponse where
  model : String
  created_at : String
  response : String
  done : Bool
  done_reason : Option String
  context : List Nat
  total_duration : Option Nat
  load_duration : Option Nat
  prompt_eval_count : Option Nat
  prompt_eval_duration : Option Nat
  eval_count : Option Nat
  eval_duration : Option Nat
deriving DecidableEq, Repr

/-- Derived `Deserialize` for GenerateResponse
(`serde_json::from_value` at src/ollama_client.rs line 143). -/
def GenerateResponse.deserialize (j : Json) :
    Except String GenerateResponse := do
  let model ← reqField j "model" Json.asString
  let created_at ← reqField j "created_at" Json.asString
  let response ← reqField j "response" Json.asString
  let done ← reqField j "done" Json.asBool
  let done_reason ← optField j "done_reason" Json.asString
  let context ← reqField j "context" Json.asNatArray
  let total_duration ← optField j "total_duration" Json.asNat
  let load_duration ← optField j "load_duration" Json.asNat
  let prompt_eval_count ← optField j "prompt_eval_count" Json.asNat
  let prompt_eval_duration ← optField j "prompt_eval_duration" Json.asNat
  let eval_count ← optField j "eval_count" Json.asNat
  let eval_duration ← optField j "eval_duration" Json.asNat
  return { model, created_at, response, done, done_reason, context,
           total_duration, load_duration, prompt_eval_count,
           prompt_eval_duration, eval_count, eval_duration }

structure OllamaClient where
  auth_api_client : WebApiClient
  base_url : Url
deriving DecidableEq, Repr

/-- OllamaClient::new (src/ollama_client.rs lines 72-111): defaults the
credential to the empty string, attaches `Authorization: Bearer {key}`
(mapping a header failure to `InvalidApiKey`), then parses the base URL
(mapping a parse failure to `InvalidInput`).  Pure — no network access. -/
def OllamaClient.new (setting : ServerConfig) (api_key : Option String) :
    Except WebApiClientError OllamaClient :=
  let key := api_key.getD ""
  let c := WebApiClient.new setting.connection_timeout setting.deadline_timeout
  match c.add_header "Authorization" ("Bearer " ++ key) with
  | (c1, none) =>
      match Url.parse setting.base_api_url with
      | some url => .ok { auth_api_client := c1, base_url := url }
      | none => .error (.InvalidInput
          ("Failed to parse base API URL (" ++ setting.base_api_url ++ ")"))
  | (_, some e) => .error (.InvalidApiKey
      ("Failed to add header to WebApiClient: " ++ e.display))

/-- The wire body OllamaClient::generate serializes
(src/ollama_client.rs lines 120, 133-139): named fields plus
`..Default::default()`. -/
def OllamaClient.generateRequestBody (model system_prompt prompt : String)
    (json : Bool) : Json :=
  let format := if json then some "json" else none
  GenerateRequest.serialize
    { GenerateRequest.default with
        model := model,
        system := some system_prompt,
        prompt := prompt,
        format := format }

/-- OllamaClient::generate (src/ollama_client.rs lines 113-153), with the
wire response passed in as `resp`: build and POST the request body, then
deserialize the returned JSON into a GenerateResponse, mapping a serde
failure to `ParseError`. -/
def OllamaClient.generate (client : OllamaClient)
    (model system_prompt prompt : String) (json : Bool)
    (resp : HttpResponse) : Except WebApiClientError GenerateResponse :=
  let url := client.base_url.joinAbsPath "/api/generate"
  let body := OllamaClient.generateRequestBody model system_prompt prompt json
  match client.auth_api_client.post_request url body resp with
  | .error e => .error e
  | .ok v =>
      match GenerateResponse.deserialize v with
      | .ok r => .ok r
      | .error e => .error (.ParseError
          ("Failed to parse generate response: " ++ e))

/-! ## OpenAI-compatible adapter (src/openai_client.rs) -/

inductive OpenAiClientError where
  | InvalidApiKey : String → OpenAiClientError
  | InvalidInput : String → OpenAiClientError
  | CompletionFailed : String → OpenAiClientError
deriving DecidableEq, Repr

structure ChatMessage where
  role : String
  content : String
deriving DecidableEq, Repr

structure ChatCompletionRequest where
  model : String
  messages : List ChatMessage
deriving DecidableEq, Repr

structure ChatCompletionChoice where
  index : Int
  message : ChatMessage
deriving DecidableEq, Repr

structure ChatCompletionResponse where
  choices : List ChatCompletionChoice
deriving DecidableEq, Repr

def ChatMessage.serialize (m : ChatMessage) : Json :=
  .obj [("role", .str m.role), ("content", .str m.content)]

/-- Derived `Serialize` for ChatCompletionRequest
(src/openai_client.rs lines 51-55). -/
def ChatCompletionRequest.serialize (r : ChatCompletionRequest) : Json :=
  .obj [("model", .str r.model),
        ("messages", .arr (r.messages.map ChatMessage.serialize))]

def ChatMessage.deserialize (j : Json) : Except String ChatMessage := do
  let role ← reqField j "role" Json.asString
  let content ← reqField j "content" Json.asString
  return { role, content }

def ChatCompletionChoice.deserialize (j : Json) :
    Except String ChatCompletionChoice := do
  let index ← reqField j "index" (fun v =>
    match v with
    | .num q => if q.den = 1 then some q.num else none
    | _ => none)
  let message ← reqField j "message" (fun v =>
    (ChatMessage.deserialize v).toOption)
  return { index, message }

def deserializeChoices : List Json → Except String (List ChatCompletionChoice)
  | [] => .ok []
  | x :: t => do
      let c ← ChatCompletionChoice.deserialize x
      let cs ← deserializeChoices t
      return c :: cs

/-- Derived `Deserialize` for ChatCompletionResponse
(`serde_json::from_value` at src/openai_client.rs line 182). -/
def ChatCompletionResponse.deserialize (j : Json) :
    Except String ChatCompletionResponse :=
  match j.getField "choices" with
  | none => .error "missing field choices"
  | some (.arr xs) =>
      match deserializeChoices xs with
      | .ok cs => .ok { choices := cs }
      | .error e => .error e
  | some _ => .error "invalid type for field choices"

structure OpenAiClient where
  auth_api_client : WebApiClient
  base_url : Url
deriving DecidableEq, Repr

/-- OpenAiClient::new (src/openai_client.rs lines 74-123): first rejects a
missing or empty credential with `InvalidApiKey` (before the header or the
URL is even looked at), then attaches the bearer header (mapping a header
failure to `InvalidApiKey`), then parses the base URL (mapping a parse
failure to `InvalidInput`).  Pure — no network access. -/
def OpenAiClient.new (setting : ServerConfig) (api_key : Option String) :
    Except OpenAiClientError OpenAiClient :=
  if (api_key.getD "").isEmpty then
    .error (.InvalidApiKey "API key cannot be empty")
  else
    let key := api_key.getD ""
    let c := WebApiClient.new setting.connection_timeout setting.deadline_timeout
    match c.add_header "Authorization" ("Bearer " ++ key) with
    | (c1, none) =>
        match Url.parse setting.base_api_url with
        | some url => .ok { auth_api_client := c1, base_url := url }
        | none => .error (.InvalidInput
            ("Failed to parse base API URL (" ++ setting.base_api_url ++ ")"))
    | (_, some e) => .error (.InvalidApiKey
        ("Failed to add header to WebApiClient: " ++ e.display))

/-- The wire body OpenAiClient::chat_completion serializes
(src/openai_client.rs lines 142, 154-166): the `_format` binding from
`json` is computed and then never used — the request itself carries only
the model and the two-message conversation. -/
def OpenAiClient.chatCompletionPayload (model system_prompt prompt : String)
    (json : Bool) : Json :=
  let _format := if json then some "json" else none
  ChatCompletionRequest.serialize
    { model := model,
      messages := [{ role := "system", content := system_prompt },
                   { role := "user", content := prompt }] }

/-- The response-side scan of chat_completion
(src/openai_client.rs lines 192-204): the first choice whose message role
is "assistant", or a distinguished `CompletionFailed` when none is. -/
def OpenAiClient.extractAssistant (parsed : ChatCompletionResponse) :
    Except OpenAiClientError String :=
  match parsed.choices.find? (fun o => o.message.role == "assistant") with
  | none => .error (.CompletionFailed "No assistant response found")
  | some c => .ok c.message.content

/-- OpenAiClient::chat_completion (src/openai_client.rs lines 135-205),
with the wire response passed in as `resp`. -/
def OpenAiClient.chat_completion (client : OpenAiClient)
    (model system_prompt prompt : String) (json : Bool)
    (resp : HttpResponse) : Except OpenAiClientError String :=
  let url := client.base_url.joinAbsPath "/v1/chat/completions"
  let body := OpenAiClient.chatCompletionPayload model system_prompt prompt json
  match client.auth_api_client.post_request url body resp with
  | .error e => .error (.CompletionFailed
      ("POST request failed: " ++ e.display))
  | .ok v =>
      match ChatCompletionResponse.deserialize v with
      | .error e => .error (.CompletionFailed
          ("Failed to parse chat_completion response: " ++ e))
      | .ok parsed => OpenAiClient.extractAssistant parsed

/-- OpenAiClient::generate (src/openai_client.rs lines 124-133) delegates
to chat_completion. -/
def OpenAiClient.generate (client : OpenAiClient)
    (model system_prompt prompt : String) (json : Bool)
    (resp : HttpResponse) : Except OpenAiClientError String :=
  client.chat_completion model system_prompt prompt json resp

/-! ## Backend selection factory (spec §4.4)

The factory itself lives in the application layer, outside the provided
source files; only its contract is given by the spec. -/

inductive Backend where
  | ollama : OllamaClient → Backend
  | openai : OpenAiClient → Backend
deriving DecidableEq, Repr

inductive FactoryError where
  | UnsupportedBackend : String → FactoryError
  | OllamaError : WebApiClientError → FactoryError
  | OpenAiError : OpenAiClientError → FactoryError
deriving DecidableEq, Repr

/-- Modelled from the spec: the factory of the Backend Selection Contract
(§4.4) is not among the provided source files; per the spec it "maps
`ServerIdentity.api_type` (e.g. a local-model tag vs. an OpenAI-compatible
tag) to the correct adapter constructor, surfacing an `UnsupportedBackend`
error for unrecognized `api_type` values" — an exhaustive match that fails
loudly rather than defaulting. -/
def createBackend (setting : ServerConfig) (api_key : Option String) :
    Except FactoryError Backend :=
  if setting.api_type = "ollama" then
    match OllamaClient.new setting api_key with
    | .ok c => .ok (.ollama c)
    | .error e => .error (.OllamaError e)
  else if setting.api_type = "openai" then
    match OpenAiClient.new setting api_key with
    | .ok c => .ok (.openai c)
    | .error e => .error (.OpenAiError e)
  else
    .error (.UnsupportedBackend setting.api_type)

/-! ## Concrete test fixtures -/

def isOkE {ε α : Type} : Except ε α → Bool
  | .ok _ => true
  | .error _ => false

def cfgOllama : ServerConfig :=
  { name := "local", model := "llama3", api_type := "ollama",
    base_api_url := "http://localhost:11434", secret := none,
    connection_timeout := none, deadline_timeout := none }

def cfgOpenai : ServerConfig :=
  { name := "cloud", model := "gpt-4o", api_type := "openai",
    base_api_url := "https://api.example.com", secret := some "cloud-key",
    connection_timeout := some 5, deadline_timeout := some 600 }

def cfgUnknown : ServerConfig :=
  { name := "other", model := "m", api_type := "grpc",
    base_api_url := "http://localhost:9999", secret := none,
    connection_timeout := none, deadline_timeout := none }

def cfgBadUrl : ServerConfig :=
  { name := "bad", model := "m", api_type := "ollama",
    base_api_url := "not a url", secret := none,
    connection_timeout := none, deadline_timeout := none }

def urlOllama : Url := { scheme := "http", rest := "//localhost:11434" }

def urlOpenai : Url := { scheme := "https", rest := "//api.example.com" }

def testOllamaClient : OllamaClient :=
  match OllamaClient.new cfgOllama none with
  | .ok c => c
  | .error _ => { auth_api_client := WebApiClient.new none none,
                  base_url := urlOllama }

def testOpenAiClient : OpenAiClient :=
  match OpenAiClient.new cfgOpenai (some "sk-test") with
  | .ok c => c
  | .error _ => { auth_api_client := WebApiClient.new none none,
                  base_url := urlOpenai }

/-- A wire response from the local-model backend carrying only the four
non-optional scalar fields (and in particular no `context`). -/
def minimalOllamaJson : Json :=
  .obj [("model", .str "llama3"), ("created_at", .str "2026-01-01"),
        ("response", .str "hi"), ("done", .bool true)]

def okResp (j : Json) : HttpResponse :=
  { status := 200, body := "", bodyJson := some j }

def resp500 : HttpResponse :=
  { status := 500, body := "\x7b\"error\":\"boom\"\x7d", bodyJson := none }

/-- The spec §8 chat-completions example: a non-assistant choice at index
0 followed by the assistant choice at index 1. -/
def exampleChoices : List ChatCompletionChoice :=
  [{ index := 0, message := { role := "user", content := "echo" } },
   { index := 1, message := { role := "assistant", content := "hello" } }]

def exampleChoicesJson : Json :=
  .obj [("choices", .arr
    [.obj [("index", .num 0),
           ("message", .obj [("role", .str "user"),
                             ("content", .str "echo")])],
     .obj [("index", .num 1),
           ("message", .obj [("role", .str "assistant"),
                             ("content", .str "hello")])]])]

/-- The client value OllamaClient::new produces for an absent credential:
the transport carries `Authorization: Bearer ` with an empty token. -/
def ollamaNoKeyClient (cfg : ServerConfig) (u : Url) : OllamaClient :=
  { auth_api_client :=
      ((WebApiClient.new cfg.connection_timeout cfg.deadline_timeout).add_header
        "Authorization" "Bearer ").1,
    base_url := u }

/-! ## Helper lemmas -/

lemma strData_append (a b : String) : (a ++ b).data = a.data ++ b.data := rfl

lemma lookupHeader_insertHeader_self (hs : List (String × String))
    (k v : String) : lookupHeader (insertHeader hs k v) k = some v := by
  induction hs with
  | nil => simp [insertHeader, lookupHeader]
  | cons p t ih =>
      by_cases h : p.1 = k
      · simp [insertHeader, lookupHeader, h]
      · simp [insertHeader, lookupHeader, h, ih]

lemma lookupHeader_insertHeader_ne (hs : List (String × String))
    (k v k' : String) (h : k' ≠ k) :
    lookupHeader (insertHeader hs k v) k' = lookupHeader hs k' := by
  induction hs with
  | nil => simp [insertHeader, lookupHeader, Ne.symm h]
  | cons p t ih =>
      by_cases hp : p.1 = k
      · simp [insertHeader, lookupHeader, hp, Ne.symm h]
      · simp [insertHeader, lookupHeader, hp, ih]

lemma find?_first_match {α : Type} (p : α → Bool) (pre post : List α) (c : α)
    (hpre : ∀ c' ∈ pre, ¬ p c') (hc : p c) :
    (pre ++ c :: post).find? p = some c := by
  induction pre with
  | nil => simp [List.find?_cons_of_pos, hc]
  | cons a t ih =>
      rw [List.cons_append, List.find?_cons_of_neg _ (hpre a (by simp))]
      exact ih (fun c' h => hpre c' (by simp [h]))

lemma add_header_auth (c : WebApiClient) (v : String)
    (hv : validHeaderValue v = true) :
    c.add_header "Authorization" v =
      ({ c with
          headers := insertHeader c.headers "authorization" v,
          client := mkHttpClient c.user_agent
            (insertHeader c.headers "authorization" v)
            c.connection_timeout c.deadline_timeout }, none) := by
  have hn : validHeaderName "Authorization" = true := by decide
  have hl : lowerStr "Authorization" = "authorization" := rfl
  simp [WebApiClient.add_header, hn, hv, hl]

/-! ## Claims -/

/-- C2 counterexample: with `want_json = false`, the serialized local-model
request body does **not** omit the `format` key; the derived `Serialize`
for `GenerateRequest` (no `skip_serializing_if`) emits the `None` as an
explicit `null`, so the key is present with a null value. -/
theorem C2_counterexample :
    (OllamaClient.generateRequestBody "llama3" "sys" "hi" false).getField
      "format" = some Json.null := by
  rfl

/-- C2 (amended): for every model, system prompt and prompt, when
`want_json` is true the serialized request body's `format` field equals
`"json"`, and when `want_json` is false the `format` key is present with
the value `null` (serde serializes the `None` as `null`; the key is not
omitted). -/
theorem C2_format_field (model sys p : String) :
    (OllamaClient.generateRequestBody model sys p true).getField "format"
        = some (.str "json")
    ∧ (OllamaClient.generateRequestBody model sys p false).getField "format"
        = some Json.null := by
  exact ⟨rfl, rfl⟩

/-- C4: for every ServerConfig, constructing OpenAiClient with an absent
(`none`) or empty credential fails with `InvalidApiKey "API key cannot be
empty"`.  The equality holds for **every** config — including ones whose
`base_api_url` is malformed — because the credential check is the first
thing the constructor does, before any URL parsing or header construction;
the constructor is a pure function, so no network access is involved. -/
theorem C4_openai_rejects_missing_key (cfg : ServerConfig) :
    OpenAiClient.new cfg none
        = .error (.InvalidApiKey "API key cannot be empty")
    ∧ OpenAiClient.new cfg (some "")
        = .error (.InvalidApiKey "API key cannot be empty") := by
  exact ⟨rfl, rfl⟩

/-- C9: for every model, system prompt and user prompt, the wire payload
OpenAiClient::chat_completion builds is identical whether `want_json` is
true or false (the flag is bound to the unused `_format` and has no wire
effect), and consequently the whole call behaves identically on every wire
response. -/
theorem C9_want_json_no_wire_effect (client : OpenAiClient)
    (model sys p : String) (resp : HttpResponse) :
    OpenAiClient.chatCompletionPayload model sys p true
        = OpenAiClient.chatCompletionPayload model sys p false
    ∧ client.chat_completion model sys p true resp
        = client.chat_completion model sys p false resp := by
  exact ⟨rfl, rfl⟩

/-- C5: the backend factory (modelled from spec §4.4, as the factory lives
outside the provided source files) maps the local-model tag to the
local-model adapter constructor and the OpenAI-compatible tag to the chat
adapter constructor, and for every other `api_type` value fails with
`UnsupportedBackend` rather than defaulting to some adapter. -/
theorem C5_factory_dispatch (cfg : ServerConfig) (key : Option String) :
    (cfg.api_type = "ollama" →
      createBackend cfg key = (match OllamaClient.new cfg key with
        | .ok c => .ok (.ollama c)
        | .error e => .error (.OllamaError e)))
    ∧ (cfg.api_type = "openai" →
      createBackend cfg key = (match OpenAiClient.new cfg key with
        | .ok c => .ok (.openai c)
        | .error e => .error (.OpenAiError e)))
    ∧ (cfg.api_type ≠ "ollama" → cfg.api_type ≠ "openai" →
      createBackend cfg key
          = .error (.UnsupportedBackend cfg.api_type)) := by
  refine ⟨fun h => ?_, fun h => ?_, fun h1 h2 => ?_⟩
  · simp [createBackend, h]
  · simp [createBackend, h]
  · simp [createBackend, h1, h2]

/-- C5 witness: an unrecognized tag ("grpc") is rejected with
`UnsupportedBackend`, and the two recognized tags dispatch to their
adapters. -/
theorem C5_factory_witness :
    createBackend cfgUnknown none = .error (.UnsupportedBackend "grpc")
    ∧ createBackend cfgOllama none = .ok (.ollama testOllamaClient)
    ∧ createBackend cfgOpenai (some "sk-test")
        = .ok (.openai testOpenAiClient) := by
  refine ⟨(C5_factory_dispatch cfgUnknown none).2.2 (by decide) (by decide),
    ?_, ?_⟩
  · rw [(C5_factory_dispatch cfgOllama none).1 rfl]; rfl
  · rw [(C5_factory_dispatch cfgOpenai (some "sk-test")).2.1 rfl]; rfl

/-- C1 counterexample: a local-model response JSON containing only
`{model, created_at, response, done}` does **not** parse: `context` is a
plain `Vec<usize>` field of `GenerateResponse` (not an `Option`, and the
derive carries no `#[serde(default)]`), so generate fails with
`ParseError` rather than succeeding. -/
theorem C1_counterexample :
    testOllamaClient.generate "llama3" "sys" "hi" false
        (okResp minimalOllamaJson)
      = .error (.ParseError
          "Failed to parse generate response: missing field context") := by
  rfl

/-- C1 (amended): for every local-model backend response JSON containing
only the fields `{model, created_at, response, done, context}` — `context`
being a required, non-optional field of GenerateResponse — generate
succeeds and every optional field of the result (done_reason,
total_duration, load_duration, prompt_eval_count, prompt_eval_duration,
eval_count, eval_duration) is `None`; parsing never fails because an
optional field is missing. -/
theorem C1_optional_fields_default (m t r : String) (d : Bool) (ctxj : Json)
    (ctx : List Nat) (model sys p : String) (flag : Bool)
    (hctx : ctxj.asNatArray = some ctx) :
    testOllamaClient.generate model sys p flag
      (okResp (.obj [("model", .str m), ("created_at", .str t),
        ("response", .str r), ("done", .bool d), ("context", ctxj)]))
      = .ok { model := m, created_at := t, response := r, done := d,
              done_reason := none, context := ctx, total_duration := none,
              load_duration := none, prompt_eval_count := none,
              prompt_eval_duration := none, eval_count := none,
              eval_duration := none } := by
  simp [OllamaClient.generate, WebApiClient.post_request, okResp,
    GenerateResponse.deserialize, reqField, optField, Json.getField,
    lookupAssoc, Json.asString, Json.asBool, hctx]
  rfl

/-- C1 witness: a concrete five-field response parses into a result whose
optional fields are all `None`. -/
theorem C1_optional_fields_witness :
    testOllamaClient.generate "llama3" "sys" "hi" false
      (okResp (.obj [("model", .str "llama3"),
        ("created_at", .str "2026-01-01"), ("response", .str "hi"),
        ("done", .bool true), ("context", .arr [.num 1, .num 2])]))
      = .ok { model := "llama3", created_at := "2026-01-01",
              response := "hi", done := true, done_reason := none,
              context := [1, 2], total_duration := none,
              load_duration := none, prompt_eval_count := none,
              prompt_eval_duration := none, eval_count := none,
              eval_duration := none } :=
  C1_optional_fields_default "llama3" "2026-01-01" "hi" true
    (.arr [.num 1, .num 2]) [1, 2] "llama3" "sys" "hi" false (by decide)

/-- C3: for every chat-completions wire response that deserializes to a
list of choices, OpenAiClient::generate returns the content of the first
choice (in list order, regardless of the choices' `index` values) whose
message role is "assistant"; when no choice has that role it fails with
`CompletionFailed "No assistant response found"` — a distinct error, never
an empty string. -/
theorem C3_first_assistant_wins (client : OpenAiClient) (m s p : String)
    (flag : Bool) (resp : HttpResponse) (v : Json)
    (choices : List ChatCompletionChoice)
    (hst : 200 ≤ resp.status ∧ resp.status < 300)
    (hbody : resp.bodyJson = some v)
    (hparse : ChatCompletionResponse.deserialize v = .ok { choices := choices }) :
    ((∀ c ∈ choices, c.message.role ≠ "assistant") →
      client.generate m s p flag resp
        = .error (.CompletionFailed "No assistant response found"))
    ∧ (∀ pre c post, choices = pre ++ c :: post →
        (∀ c' ∈ pre, c'.message.role ≠ "assistant") →
        c.message.role = "assistant" →
        client.generate m s p flag resp = .ok c.message.content) := by
  have hgen : client.generate m s p flag resp
      = OpenAiClient.extractAssistant { choices := choices } := by
    simp [OpenAiClient.generate, OpenAiClient.chat_completion,
      WebApiClient.post_request, hbody, hparse, hst.1, hst.2]
  constructor
  · intro h
    have hfind : choices.find? (fun o => o.message.role == "assistant") = none := by
      rw [List.find?_eq_none]
      intro x hx
      simpa using h x hx
    rw [hgen]
    simp [OpenAiClient.extractAssistant, hfind]
  · intro pre c post hsplit hpre hc
    have hfind : choices.find? (fun o => o.message.role == "assistant") = some c := by
      rw [hsplit]
      exact find?_first_match _ pre post c
        (fun c' h' => by simpa using hpre c' h') (by simpa using hc)
    rw [hgen]
    simp [OpenAiClient.extractAssistant, hfind]

/-- C3 witness: on the spec's example response (a "user" choice at index 0
followed by an "assistant" choice at index 1) generate returns "hello",
and on a response with no assistant choice it fails with the distinguished
CompletionFailed error. -/
theorem C3_witness :
    testOpenAiClient.generate "gpt-4o" "sys" "hi" false
        (okResp exampleChoicesJson) = .ok "hello"
    ∧ testOpenAiClient.generate "gpt-4o" "sys" "hi" false
        (okResp (.obj [("choices", .arr
          [.obj [("index", .num 0),
                 ("message", .obj [("role", .str "user"),
                                   ("content", .str "echo")])]])]))
        = .error (.CompletionFailed "No assistant response found") := by
  constructor
  · exact (C3_first_assistant_wins testOpenAiClient "gpt-4o" "sys" "hi" false
      (okResp exampleChoicesJson) exampleChoicesJson exampleChoices
      (by decide) rfl rfl).2
      [{ index := 0, message := { role := "user", content := "echo" } }]
      { index := 1, message := { role := "assistant", content := "hello" } }
      [] rfl (by decide) rfl
  · exact (C3_first_assistant_wins testOpenAiClient "gpt-4o" "sys" "hi" false
      _ (.obj [("choices", .arr
          [.obj [("index", .num 0),
                 ("message", .obj [("role", .str "user"),
                                   ("content", .str "echo")])]])])
      [{ index := 0, message := { role := "user", content := "echo" } }]
      (by decide) rfl rfl).1 (by decide)

/-- C6 counterexample: a ServerConfig with a syntactically valid
`base_api_url` and a **non-empty** credential does not guarantee
successful construction: a credential containing a control character makes
the bearer header malformed, so OpenAiClient::new fails (with
`InvalidApiKey`, since the header step precedes the URL step) — refuting
the claim's success direction as stated. -/
theorem C6_counterexample :
    (Url.parse cfgOpenai.base_api_url).isSome = true
    ∧ OpenAiClient.new cfgOpenai (some "a\nb")
        = .error (.InvalidApiKey ("Failed to add header to WebApiClient: "
            ++ WebApiClientError.display (.HeaderCreationError
                  (headerValueErrMsg "Authorization")))) := by
  exact ⟨rfl, rfl⟩

/-- C6 (amended): provided the supplied credential (defaulted to the empty
string by the local adapter) yields a well-formed `Authorization` header
value: for every ServerConfig whose `base_api_url` fails to parse,
construction of either adapter fails with `InvalidInput` (for the OpenAI
adapter, given additionally a non-empty credential, since the
empty-credential check precedes the URL check); and for every ServerConfig
with a syntactically valid `base_api_url`, construction succeeds (for the
OpenAI adapter, with a non-empty credential).  Both constructors are pure
functions of their inputs, so no network I/O is performed either way. -/
theorem C6_url_validation (cfg : ServerConfig) (key : Option String)
    (hval : validHeaderValue ("Bearer " ++ key.getD "") = true) :
    (Url.parse cfg.base_api_url = none →
      OllamaClient.new cfg key = .error (.InvalidInput
        ("Failed to parse base API URL (" ++ cfg.base_api_url ++ ")"))
      ∧ (key.getD "" ≠ "" →
          OpenAiClient.new cfg key = .error (.InvalidInput
            ("Failed to parse base API URL (" ++ cfg.base_api_url ++ ")"))))
    ∧ (∀ u, Url.parse cfg.base_api_url = some u →
      isOkE (OllamaClient.new cfg key) = true
      ∧ (key.getD "" ≠ "" → isOkE (OpenAiClient.new cfg key) = true)) := by
  have hadd := add_header_auth
    (WebApiClient.new cfg.connection_timeout cfg.deadline_timeout) _ hval
  have hkey : ∀ hne : key.getD "" ≠ "", (key.getD "").isEmpty = false := by
    intro hne
    cases h : (key.getD "").isEmpty
    · rfl
    · exact absurd ((String.isEmpty_iff _).mp h) hne
  constructor
  · intro hurl
    refine ⟨?_, fun hne => ?_⟩
    · simp [OllamaClient.new, hadd, hurl]
    · simp [OpenAiClient.new, hkey hne, hadd, hurl]
  · intro u hurl
    refine ⟨?_, fun hne => ?_⟩
    · simp [OllamaClient.new, hadd, hurl, isOkE]
    · simp [OpenAiClient.new, hkey hne, hadd, hurl, isOkE]

/-- C6 witness: both adapters construct successfully on well-formed URLs
with well-formed credentials, and the local adapter rejects a malformed
URL with `InvalidInput`. -/
theorem C6_url_witness :
    isOkE (OllamaClient.new cfgOllama none) = true
    ∧ isOkE (OpenAiClient.new cfgOpenai (some "sk-test")) = true
    ∧ OllamaClient.new cfgBadUrl none = .error (.InvalidInput
        "Failed to parse base API URL (not a url)") := by
  refine ⟨((C6_url_validation cfgOllama none (by decide)).2 urlOllama rfl).1,
    ((C6_url_validation cfgOpenai (some "sk-test") (by decide)).2 urlOpenai
      rfl).2 (by decide), ?_⟩
  have h := ((C6_url_validation cfgBadUrl none (by decide)).1 rfl).1
  exact h

/-- C7: for every wire response with a non-2xx status, post_request
returns a `PostFailed` error whose message contains both the status code
(via the status Display, "{code} {canonical reason}") and the raw response
body text — the body is not discarded. -/
theorem C7_non2xx_postfailed (c : WebApiClient) (u : Url) (payload : Json)
    (resp : HttpResponse)
    (h : ¬ (200 ≤ resp.status ∧ resp.status < 300)) :
    c.post_request u payload resp
      = .error (.PostFailed (postErrMsg resp.status resp.body))
    ∧ (toString resp.status).data <:+: (postErrMsg resp.status resp.body).data
    ∧ resp.body.data <:+: (postErrMsg resp.status resp.body).data := by
  refine ⟨?_, ?_, ?_⟩
  · simp [WebApiClient.post_request, h]
  · refine ⟨"Server returned error status ".data,
      (" " ++ canonicalReason resp.status ++ ": " ++ resp.body).data, ?_⟩
    simp [postErrMsg, statusDisplay, strData_append, List.append_assoc]
  · refine ⟨("Server returned error status " ++ statusDisplay resp.status
      ++ ": ").data, [], ?_⟩
    simp [postErrMsg, strData_append, List.append_assoc]

/-- C7 witness: a 500 response with body `{"error":"boom"}` yields a
PostFailed whose message contains "500" and the raw body. -/
theorem C7_witness :
    (WebApiClient.new none none).post_request urlOllama Json.null resp500
      = .error (.PostFailed (postErrMsg 500 "\x7b\"error\":\"boom\"\x7d"))
    ∧ (toString (500 : Nat)).data
        <:+: (postErrMsg 500 "\x7b\"error\":\"boom\"\x7d").data
    ∧ "\x7b\"error\":\"boom\"\x7d".data
        <:+: (postErrMsg 500 "\x7b\"error\":\"boom\"\x7d").data :=
  C7_non2xx_postfailed (WebApiClient.new none none) urlOllama Json.null
    resp500 (by decide)

/-- C8: for every client state, add_header with an ill-formed header name
or value fails with `HeaderCreationError` and returns the state — header
map and built client — unchanged (atomicity on error); with well-formed
inputs it succeeds, the (lowercased) name now maps to the new value —
overwriting any previous value stored under it — all other names are
untouched, and the internal client is rebuilt from the new header map. -/
theorem C8_add_header_atomic (c : WebApiClient) (k v : String) :
    (validHeaderName k = false →
      c.add_header k v
        = (c, some (.HeaderCreationError (headerNameErrMsg k))))
    ∧ (validHeaderName k = true → validHeaderValue v = false →
      c.add_header k v
        = (c, some (.HeaderCreationError (headerValueErrMsg k))))
    ∧ (validHeaderName k = true → validHeaderValue v = true →
      (c.add_header k v).2 = none
      ∧ lookupHeader (c.add_header k v).1.headers (lowerStr k) = some v
      ∧ (∀ k', k' ≠ lowerStr k →
          lookupHeader (c.add_header k v).1.headers k'
            = lookupHeader c.headers k')
      ∧ (c.add_header k v).1.client
          = mkHttpClient c.user_agent (c.add_header k v).1.headers
              c.connection_timeout c.deadline_timeout) := by
  refine ⟨fun hn => ?_, fun hn hv => ?_, fun hn hv => ?_⟩
  · simp [WebApiClient.add_header, hn]
  · simp [WebApiClient.add_header, hn, hv]
  · refine ⟨?_, ?_, fun k' hk' => ?_, ?_⟩
    · simp [WebApiClient.add_header, hn, hv]
    · simp [WebApiClient.add_header, hn, hv, lookupHeader_insertHeader_self]
    · simp [WebApiClient.add_header, hn, hv,
        lookupHeader_insertHeader_ne _ _ _ _ hk']
    · simp [WebApiClient.add_header, hn, hv]

/-- C8 witness: a header name containing a space is rejected leaving the
client unchanged, and re-adding Content-Type (present since construction)
overwrites its value. -/
theorem C8_witness :
    (WebApiClient.new none none).add_header "Bad Name" "v"
        = (WebApiClient.new none none,
           some (.HeaderCreationError (headerNameErrMsg "Bad Name")))
    ∧ lookupHeader ((WebApiClient.new none none).add_header
        "Content-Type" "text/plain").1.headers "content-type"
        = some "text/plain" := by
  refine ⟨(C8_add_header_atomic (WebApiClient.new none none) "Bad Name"
    "v").1 (by decide), ?_⟩
  have h := ((C8_add_header_atomic (WebApiClient.new none none)
    "Content-Type" "text/plain").2.2 (by decide) (by decide)).2.1
  exact h

/-- C10: constructing OllamaClient with an absent credential succeeds
(whenever the base URL parses), but the Authorization header is not
omitted: the credential defaults to the empty string, so the transport
carries `Authorization: Bearer ` with an empty token rather than no
Authorization header at all. -/
theorem C10_absent_credential_bearer_header (cfg : ServerConfig) (u : Url)
    (h : Url.parse cfg.base_api_url = some u) :
    OllamaClient.new cfg none = .ok (ollamaNoKeyClient cfg u)
    ∧ lookupHeader (ollamaNoKeyClient cfg u).auth_api_client.headers
        "authorization" = some "Bearer " := by
  constructor
  · have hadd := add_header_auth
      (WebApiClient.new cfg.connection_timeout cfg.deadline_timeout)
      "Bearer " (by decide)
    have hb : "Bearer " ++ "" = "Bearer " := rfl
    simp only [OllamaClient.new, Option.getD_none, ollamaNoKeyClient]
    rw [hb, hadd, h]
  · rfl

/-- C10 witness: the concrete local config with `api_key = None` yields a
client whose header map carries the empty bearer token. -/
theorem C10_witness :
    OllamaClient.new cfgOllama none
        = .ok (ollamaNoKeyClient cfgOllama urlOllama)
    ∧ lookupHeader
        (ollamaNoKeyClient cfgOllama urlOllama).auth_api_client.headers
        "authorization" = some "Bearer " :=
  C10_absent_credential_bearer_header cfgOllama urlOllama rfl

end SundayLLM
